import Mathlib

/-!
# Verification of the kbot Telegram bot core

Shallow embedding of the core of `src/cmd/kbot.go`: the per-user settings
state machine (enter / edit / save / cancel), the four per-user stores
(`userSettingsStore`, `tempUserSettingsStore`, `userInSettingsMode`,
`userWaitingFor`), the hex-color validator `isValidHexColor`, and the
decision logic of the image-request client `generateAndSendImage`.

All four Go stores are `sync.Map`s keyed by the user id; every handler reads
and writes only the entries of the sending user, so a single user's view is
modeled as one record of four optional entries (`none` = key absent from the
map).  Events of one user are processed sequentially (per-chat ordering of
the transport), so reachability is the fold of the event handlers over an
event list.  The Go stores hold `any` values but every write site stores the
proper type, so the dynamic type assertions of the Go code always succeed
and the embedding uses typed entries directly.
-/

namespace Kbot

/-- Go `strings.HasPrefix`, on the character lists of the two strings. -/
def goHasPrefix (s pre : String) : Bool :=
  pre.data.isPrefixOf s.data

/-- Go `strings.TrimPrefix`: drop `pre` from the front of `s` when present,
otherwise return `s` unchanged.  Exactly one occurrence is removed. -/
def goTrimPrefix (s pre : String) : String :=
  if goHasPrefix s pre then ⟨s.data.drop pre.data.length⟩ else s

/-- Go `strings.ToLower`, character by character.  Go lowercases the full
Unicode range while `Char.toLower` only lowercases basic latin letters; the
two agree on every character whose lowercase form could be a hexadecimal
digit (only `A`..`F` lowercase into `a`..`f` under either mapping), which is
all `isValidHexColor` ever inspects. -/
def goToLower (s : String) : String :=
  ⟨s.data.map Char.toLower⟩

/-- Go `strings.Fields`: split on whitespace, keeping only the non-empty
pieces. -/
def goFields (s : String) : List String :=
  ((s.data.splitOnP fun c => c.isWhitespace).filter fun l => !l.isEmpty).map
    fun l => (⟨l⟩ : String)

/-- One character of a lowercase hex color, as tested by the loop body of
`isValidHexColor` after lowercasing: `(r >= '0' && r <= '9') || (r >= 'a' && r <= 'f')`. -/
def isHexLowerDigit (r : Char) : Bool :=
  (decide ('0' ≤ r) && decide (r ≤ '9')) || (decide ('a' ≤ r) && decide (r ≤ 'f'))

/-- A hexadecimal digit in either case, `[0-9a-fA-F]` — the character shape
named by the specification. -/
def isHexDigitChar (c : Char) : Bool :=
  (decide ('0' ≤ c) && decide (c ≤ '9')) || (decide ('a' ≤ c) && decide (c ≤ 'f'))
    || (decide ('A' ≤ c) && decide (c ≤ 'F'))

/-- Function `isValidHexColor` from `src/cmd/kbot.go`: normalize (strip one leading
`#`, lowercase), then require length 3 or 6 and every character a hex digit.
Go measures `len(hex)` in bytes and iterates runes; both lengths agree
whenever every character is a one-byte hex digit, and any string containing
a multi-byte character fails the digit check under both readings, so the
character-list length used here is extensionally the same test. -/
def isValidHexColor (hexIn : String) : Bool :=
  let hex := goToLower (goTrimPrefix hexIn "#")
  let length := hex.data.length
  if length ≠ 3 ∧ length ≠ 6 then false
  else hex.data.all isHexLowerDigit

/-- The Go struct `UserSettings`: the pair of hex color strings. -/
structure UserSettings where
  TextColor : String
  BgColor : String
deriving DecidableEq

/-- The default settings stored by every `LoadOrStore` call. -/
def defaultSettings : UserSettings :=
  { TextColor := "000000", BgColor := "FFFFFF" }

/-- One user's slice of the four global stores.  `none` models the key being
absent from the corresponding `sync.Map`. -/
structure UserState where
  perm : Option UserSettings
  temp : Option UserSettings
  mode : Option Bool
  waiting : Option String
deriving DecidableEq

/-- A user that has never interacted: absent from all four maps. -/
def initialState : UserState :=
  { perm := none, temp := none, mode := none, waiting := none }

/-- The call `userSettingsStore.LoadOrStore(senderID, UserSettings)` with the defaults:
read-or-insert-default on the permanent store.  Returns the loaded (or
freshly stored) value together with the updated state. -/
def loadOrStorePerm (s : UserState) : UserSettings × UserState :=
  match s.perm with
  | some v => (v, s)
  | none => (defaultSettings, { s with perm := some defaultSettings })

/-- The value a permanent-settings lookup observes for this user
(read-through-with-default semantics of the specification). -/
def getOrDefault (s : UserState) : UserSettings :=
  (loadOrStorePerm s).1

/-- Function `isUserInSettingsMode` from `src/cmd/kbot.go`: absent key means not in
settings mode; otherwise the stored flag decides.  (The Go bool type
assertion always succeeds since only bools are ever stored.) -/
def isUserInSettingsMode (s : UserState) : Bool :=
  match s.mode with
  | none => false
  | some b => b

/-- Function `exitSettingsMode` from `src/cmd/kbot.go`: store `false` in the mode
map, store `""` in the waiting map, delete the temporary-settings entry. -/
def exitSettingsMode (s : UserState) : UserState :=
  { s with mode := some false, waiting := some "", temp := none }

/-- The query parameters of the Imgbun request URL that depend on the user
input and state (`text`, `color`, `background`, `size`); the API key and the
fixed `format=json` are ambient configuration, and percent-encoding is a
transport detail applied when the URL string is formatted. -/
structure ImgbunRequest where
  text : String
  color : String
  background : String
  size : String
deriving DecidableEq

/-- The Go struct `ImgbunResponse` parsed from the JSON body. -/
structure ImgbunResponse where
  Status : String
  DirectLink : String
  Message : String
deriving DecidableEq

/-- The body of an HTTP 200-class answer: either not parseable as
`ImgbunResponse`, or the decoded structure. -/
inductive HttpBody
  | malformed
  | decoded (resp : ImgbunResponse)
deriving DecidableEq

/-- Oracle for one outbound HTTP exchange: request construction fails, the
transport fails (network error or the 20s timeout), or a response with a
status code and body arrives. -/
inductive HttpOutcome
  | buildError
  | transportError
  | response (statusCode : Nat) (body : HttpBody)
deriving DecidableEq

/-- The user-facing result of one `generateAndSendImage` call, one
constructor per `c.Send` site of the Go function (the final photo send
itself is the success case). -/
inductive ImageResult
  | requestBuildFailed
  | unavailable
  | upstreamStatus (code : Nat)
  | decodeFailed
  | upstreamLogic (message : String)
  | missingResult
  | photoSent (directLink : String) (caption : String)
deriving DecidableEq

/-- The caption before the length check: `fmt.Sprintf("Image for: \x27%s\x27", text)`. -/
def rawCaption (text : String) : String :=
  "Image for: \x27" ++ text ++ "\x27"

/-- The caption actually attached to the photo: truncated to 1020 units plus
a `...` marker when the raw caption exceeds 1024 units.  Go counts bytes
where this counts characters; the spec speaks of abstract units. -/
def sentCaption (text : String) : String :=
  if (rawCaption text).data.length > 1024 then
    (⟨(rawCaption text).data.take 1020⟩ : String) ++ "..."
  else rawCaption text

/-- One reply sent back to the chat, one constructor per `c.Send` call site
of the handlers (the payloads are the format arguments of the Go message). -/
inductive Reply
  | welcome
  | settingsEntered (cur : UserSettings)
  | needSettingsMode
  | ignoredUnknownCommand
  | invalidColorInline (colorValue : String)
  | internalStateErrorSetColor
  | tempColorSet (settingType colorValue : String)
  | colorPrompt (settingType : String)
  | notInSettingsSave
  | internalErrorOnSave
  | settingsSaved
  | notInSettingsCancel
  | settingsCancelled
  | invalidColorReprompt (text waitingFor : String)
  | stateErrorTextInput
  | useSettingsCommands
  | imageAttempt (req : ImgbunRequest) (res : ImageResult)
deriving DecidableEq

/-- Handler `handleStart`: reset the user state via `exitSettingsMode` and greet. -/
def handleStart (s : UserState) : UserState × Reply :=
  (exitSettingsMode s, .welcome)

/-- Handler `handleSettingsEnter`: load (or lazily create) the permanent settings,
copy them into the temporary store, raise the mode flag, clear waiting. -/
def handleSettingsEnter (s : UserState) : UserState × Reply :=
  let (currentSettings, s') := loadOrStorePerm s
  ({ s' with temp := some currentSettings, mode := some true, waiting := some "" },
    .settingsEntered currentSettings)

/-- Handler `handleSetColor`: the `/tx_color` and `/bg_color` command handler.
Outside settings mode the command is rejected.  Otherwise the command word
decides the field; with an inline argument the value is validated and
written into the temporary settings (waiting cleared), without an argument
the waiting field is set and a prompt emitted.  The dispatcher only routes
texts beginning with one of the two command words here, so the Go indexing
`parts[0]` is total on the routed inputs; other inputs fall into the
ignore branch. -/
def handleSetColor (cmdText : String) (s : UserState) : UserState × Reply :=
  if !(isUserInSettingsMode s) then (s, .needSettingsMode)
  else
    let parts := goFields cmdText
    let commandName := parts.headD ""
    let settingTypeFound : Option String :=
      if goHasPrefix commandName "/tx_color" then some "tx_color"
      else if goHasPrefix commandName "/bg_color" then some "bg_color"
      else none
    match settingTypeFound with
    | none => (s, .ignoredUnknownCommand)
    | some settingType =>
      match parts with
      | _ :: arg :: _ =>
        let colorValue := goTrimPrefix arg "#"
        if !isValidHexColor colorValue then (s, .invalidColorInline colorValue)
        else
          match s.temp with
          | none => (exitSettingsMode s, .internalStateErrorSetColor)
          | some tempSettings0 =>
            let tempSettings :=
              if settingType = "tx_color" then { tempSettings0 with TextColor := colorValue }
              else { tempSettings0 with BgColor := colorValue }
            ({ s with temp := some tempSettings, waiting := some "" },
              .tempColorSet settingType colorValue)
      | _ =>
        ({ s with waiting := some settingType }, .colorPrompt settingType)

/-- Handler `handleSettingsSave`: outside settings mode the command is rejected;
with the temporary record missing the user is force-exited with an internal
error; otherwise the temporary settings are copied into the permanent store
and the mode exited. -/
def handleSettingsSave (s : UserState) : UserState × Reply :=
  if !(isUserInSettingsMode s) then (s, .notInSettingsSave)
  else
    match s.temp with
    | none => (exitSettingsMode s, .internalErrorOnSave)
    | some savedSettings =>
      (exitSettingsMode { s with perm := some savedSettings }, .settingsSaved)

/-- Handler `handleSettingsCancel`: outside settings mode rejected; otherwise exit
the mode, discarding the temporary settings. -/
def handleSettingsCancel (s : UserState) : UserState × Reply :=
  if !(isUserInSettingsMode s) then (s, .notInSettingsCancel)
  else (exitSettingsMode s, .settingsCancelled)

/-- Function `generateAndSendImage`: load (or lazily create) the permanent settings,
strip a defensive `#` from both colors, build the request, and classify the
outcome of the HTTP exchange in the order of the Go checks: build error,
transport error, non-200 status, JSON decode failure, `status != "OK"`,
empty `direct_link`, success. -/
def generateAndSendImage (net : HttpOutcome) (text : String) (s : UserState) :
    UserState × ImgbunRequest × ImageResult :=
  let (currentSettings, s') := loadOrStorePerm s
  let textColorHex := goTrimPrefix currentSettings.TextColor "#"
  let bgColorHex := goTrimPrefix currentSettings.BgColor "#"
  let req : ImgbunRequest :=
    { text := text, color := textColorHex, background := bgColorHex, size := "16" }
  match net with
  | .buildError => (s', req, .requestBuildFailed)
  | .transportError => (s', req, .unavailable)
  | .response statusCode body =>
    if statusCode ≠ 200 then (s', req, .upstreamStatus statusCode)
    else
      match body with
      | .malformed => (s', req, .decodeFailed)
      | .decoded imgbunResp =>
        if imgbunResp.Status ≠ "OK" then (s', req, .upstreamLogic imgbunResp.Message)
        else if imgbunResp.DirectLink = "" then (s', req, .missingResult)
        else (s', req, .photoSent imgbunResp.DirectLink (sentCaption text))

/-- The tail of `handleTextInput` reached when the user is not waiting for a
color value: unrecognized text inside settings mode, or an image request
outside it. -/
def handleTextFallthrough (text : String) (net : HttpOutcome) (s : UserState) :
    UserState × Reply :=
  if isUserInSettingsMode s then (s, .useSettingsCommands)
  else
    let (s', req, res) := generateAndSendImage net text s
    (s', .imageAttempt req res)

/-- Handler `handleTextInput`: when the waiting entry holds a non-empty field name,
interpret the text as a color value for that field (invalid values leave the
state untouched and re-prompt); otherwise fall through to the settings-mode
check and the image path. -/
def handleTextInput (text : String) (net : HttpOutcome) (s : UserState) :
    UserState × Reply :=
  match s.waiting with
  | some waitingFor =>
    if waitingFor ≠ "" then
      let colorValue := goTrimPrefix text "#"
      if !isValidHexColor colorValue then (s, .invalidColorReprompt text waitingFor)
      else
        match s.temp with
        | none => (exitSettingsMode s, .stateErrorTextInput)
        | some tempSettings0 =>
          let tempSettings :=
            if waitingFor = "tx_color" then { tempSettings0 with TextColor := colorValue }
            else if waitingFor = "bg_color" then { tempSettings0 with BgColor := colorValue }
            else tempSettings0
          ({ s with temp := some tempSettings, waiting := some "" },
            .tempColorSet waitingFor colorValue)
    else handleTextFallthrough text net s
  | none => handleTextFallthrough text net s

/-- One inbound chat event of a single user, as routed by the dispatcher. -/
inductive Event
  | start
  | settingsEnter
  | setColor (cmdText : String)
  | save
  | cancel
  | textMsg (text : String) (net : HttpOutcome)

/-- Dispatch one event to its handler. -/
def step (s : UserState) (e : Event) : UserState × Reply :=
  match e with
  | .start => handleStart s
  | .settingsEnter => handleSettingsEnter s
  | .setColor cmdText => handleSetColor cmdText s
  | .save => handleSettingsSave s
  | .cancel => handleSettingsCancel s
  | .textMsg text net => handleTextInput text net s

/-- The state part of `step`. -/
def stepState (s : UserState) (e : Event) : UserState :=
  (step s e).1

/-- The per-user state after a sequence of events, starting from a user
unknown to all four stores. -/
def run (es : List Event) : UserState :=
  es.foldl stepState initialState

/-- Specification-side outcome list of the image client (section 4.4 of the
spec), written down in the spec order of detection, to be compared with the
outcome computed by `generateAndSendImage`. -/
def clientOutcomeSpec (net : HttpOutcome) (text : String) : ImageResult :=
  match net with
  | .buildError => .requestBuildFailed
  | .transportError => .unavailable
  | .response statusCode body =>
    if statusCode ≠ 200 then .upstreamStatus statusCode
    else
      match body with
      | .malformed => .decodeFailed
      | .decoded r =>
        if r.Status ≠ "OK" then .upstreamLogic r.Message
        else if r.DirectLink = "" then .missingResult
        else .photoSent r.DirectLink (sentCaption text)

/-- Both colors of a settings record pass the validator.  The defaults do,
and every value the handlers store was checked, so this is the invariant the
stores actually maintain (the spec claims the stronger bare-hex shape). -/
def settingsValid (u : UserSettings) : Prop :=
  isValidHexColor u.TextColor = true ∧ isValidHexColor u.BgColor = true

/-- The inductive per-user invariant: every permanent and every temporary
entry passes the validator, and a temporary entry exists exactly when the
mode flag is raised. -/
def userInv (s : UserState) : Prop :=
  (∀ u, s.perm = some u → settingsValid u) ∧
  (∀ u, s.temp = some u → settingsValid u) ∧
  s.temp.isSome = isUserInSettingsMode s

/-! ## Helper lemmas about characters and the validator -/

/-- Character order on `Char` is the order of the underlying code points. -/
theorem char_le_iff (a b : Char) : a ≤ b ↔ a.toNat ≤ b.toNat := by
  rw [Char.le_def, UInt32.le_def, BitVec.le_def]
  exact Iff.rfl

theorem toNat_ofNat_valid (n : Nat) (h : n.isValidChar) : (Char.ofNat n).toNat = n := by
  rw [Char.ofNat, dif_pos h]
  rfl

/-- Lowercasing turns the two-case hex-digit test into the lowercase one. -/
theorem isHexLowerDigit_toLower (c : Char) :
    isHexLowerDigit c.toLower = isHexDigitChar c := by
  have hdig : ('0' : Char).toNat = 48 ∧ ('9' : Char).toNat = 57 := ⟨rfl, rfl⟩
  have hlow : ('a' : Char).toNat = 97 ∧ ('f' : Char).toNat = 102 := ⟨rfl, rfl⟩
  have hupp : ('A' : Char).toNat = 65 ∧ ('F' : Char).toNat = 70 := ⟨rfl, rfl⟩
  rw [Bool.eq_iff_iff]
  unfold Char.toLower
  by_cases h : c.toNat ≥ 65 ∧ c.toNat ≤ 90
  · rw [if_pos h]
    have hv : (c.toNat + 32).isValidChar := Or.inl (by omega)
    simp only [isHexLowerDigit, isHexDigitChar, Bool.or_eq_true, Bool.and_eq_true,
      decide_eq_true_eq, char_le_iff, toNat_ofNat_valid _ hv, hdig.1, hdig.2,
      hlow.1, hlow.2, hupp.1, hupp.2]
    omega
  · rw [if_neg h]
    simp only [isHexLowerDigit, isHexDigitChar, Bool.or_eq_true, Bool.and_eq_true,
      decide_eq_true_eq, char_le_iff, hdig.1, hdig.2, hlow.1, hlow.2, hupp.1, hupp.2]
    omega

/-- Characterization of the validator over the characters of the input after
the single leading-delimiter strip. -/
theorem isValidHexColor_iff (s : String) :
    isValidHexColor s = true ↔
      (((goTrimPrefix s "#").data.length = 3 ∨ (goTrimPrefix s "#").data.length = 6) ∧
        ∀ c ∈ (goTrimPrefix s "#").data, isHexDigitChar c = true) := by
  rw [show isValidHexColor s =
      (if ((goTrimPrefix s "#").data.map Char.toLower).length ≠ 3 ∧
          ((goTrimPrefix s "#").data.map Char.toLower).length ≠ 6 then false
        else ((goTrimPrefix s "#").data.map Char.toLower).all isHexLowerDigit) from rfl]
  simp only [List.length_map]
  by_cases h : (goTrimPrefix s "#").data.length ≠ 3 ∧
      (goTrimPrefix s "#").data.length ≠ 6
  · rw [if_pos h]
    simp only [Bool.false_eq_true, false_iff]
    rintro ⟨hlen, -⟩
    rcases h with ⟨h3, h6⟩
    omega
  · rw [if_neg h]
    rw [List.all_map,
      show isHexLowerDigit ∘ Char.toLower = isHexDigitChar from funext isHexLowerDigit_toLower,
      List.all_eq_true]
    have hlen : (goTrimPrefix s "#").data.length = 3 ∨ (goTrimPrefix s "#").data.length = 6 := by
      by_contra hc
      push_neg at hc
      exact h ⟨hc.1, hc.2⟩
    constructor
    · intro hall
      exact ⟨hlen, hall⟩
    · rintro ⟨-, hall⟩
      exact hall

/-- A string all of whose characters are hex digits does not start with the
delimiter, so the strip is the identity on it. -/
theorem goTrimPrefix_hash_eq_self (s : String)
    (h : ∀ c ∈ s.data, isHexDigitChar c = true) :
    goTrimPrefix s "#" = s := by
  unfold goTrimPrefix goHasPrefix
  cases hd : s.data with
  | nil => simp [hd, List.isPrefixOf]
  | cons c cs =>
    have hc : isHexDigitChar c = true := h c (by rw [hd]; exact List.mem_cons_self c cs)
    have hne : ('#' : Char) ≠ c := by
      intro e
      rw [← e] at hc
      exact absurd hc (by decide)
    have hp : ("#".data.isPrefixOf (c :: cs)) = false := by
      simp [List.isPrefixOf, hne]
    rw [hp]
    simp

/-! ## Claim theorems -/

/-- C3: the validator is a total function of its argument.  It returns false
for every string whose remainder after stripping one optional leading
delimiter has length other than 3 or 6 or contains a character outside
`[0-9a-fA-F]` (in particular the empty string), it returns true for every
string of length 3 or 6 consisting only of such hex digits in any mix of
cases, and it accepts both "aBc" and "ABC". -/
theorem C3_validator_spec (s : String) :
    ((((goTrimPrefix s "#").data.length ≠ 3 ∧ (goTrimPrefix s "#").data.length ≠ 6) ∨
        (∃ c ∈ (goTrimPrefix s "#").data, isHexDigitChar c = false)) →
      isValidHexColor s = false) ∧
    (((s.data.length = 3 ∨ s.data.length = 6) ∧ ∀ c ∈ s.data, isHexDigitChar c = true) →
      isValidHexColor s = true) ∧
    (isValidHexColor "aBc" = true ∧ isValidHexColor "ABC" = true) := by
  refine ⟨?_, ?_, by decide, by decide⟩
  · intro hbad
    rw [← Bool.not_eq_true]
    intro hval
    rcases (isValidHexColor_iff s).mp hval with ⟨hlen, hall⟩
    rcases hbad with ⟨h3, h6⟩ | ⟨c, hc, hcf⟩
    · rcases hlen with h | h
      · exact h3 h
      · exact h6 h
    · rw [hall c hc] at hcf
      exact Bool.true_eq_false.mp hcf
  · rintro ⟨hlen, hall⟩
    have htrim := goTrimPrefix_hash_eq_self s hall
    rw [isValidHexColor_iff, htrim]
    exact ⟨hlen, hall⟩

/-- Witness for C3: the empty string is rejected through the length clause,
and a 3-digit upper-case string is accepted through the positive clause. -/
theorem C3_validator_spec_witness :
    isValidHexColor "" = false ∧ isValidHexColor "0F0" = true :=
  ⟨(C3_validator_spec "").1 (Or.inl (by decide)),
    (C3_validator_spec "0F0").2.1 (by decide)⟩

/-- C10: handling /start stores `false` in the mode map (Idle), stores the
empty string in the waiting map, deletes the temporary-settings entry, and
writes nothing to the permanent store — whatever state the user was in, so
unsaved temporary edits are silently discarded. -/
theorem C10_start_resets (s : UserState) :
    (handleStart s).1.mode = some false ∧ (handleStart s).1.waiting = some "" ∧
    (handleStart s).1.temp = none ∧ (handleStart s).1.perm = s.perm :=
  ⟨rfl, rfl, rfl, rfl⟩

/-- C7: a save arriving with the mode flag raised but no temporary-settings
record is answered by force-exiting to Idle (mode flag false, waiting
cleared, temporary entry still absent) with the internal-error reply, and
the permanent store is untouched.  The handler is a total function, so no
crash is possible on this path. -/
theorem C7_save_missing_temp (s : UserState)
    (hm : isUserInSettingsMode s = true) (ht : s.temp = none) :
    handleSettingsSave s = (exitSettingsMode s, Reply.internalErrorOnSave) ∧
    (handleSettingsSave s).1.mode = some false ∧
    (handleSettingsSave s).1.waiting = some "" ∧
    (handleSettingsSave s).1.temp = none ∧
    (handleSettingsSave s).1.perm = s.perm := by
  have h1 : handleSettingsSave s = (exitSettingsMode s, Reply.internalErrorOnSave) := by
    unfold handleSettingsSave
    rw [hm, ht]
    rfl
  refine ⟨h1, ?_, ?_, ?_, ?_⟩ <;> rw [h1] <;> rfl

/-- Witness for C7 at the concrete corrupted state. -/
theorem C7_save_missing_temp_witness :
    handleSettingsSave { perm := none, temp := none, mode := some true, waiting := some "" } =
      (exitSettingsMode { perm := none, temp := none, mode := some true, waiting := some "" },
        Reply.internalErrorOnSave) :=
  (C7_save_missing_temp _ (by decide) rfl).1

/-- The outcome component of the client is exactly the spec-side outcome
list, for every oracle, text and state. -/
theorem generateAndSendImage_result (net : HttpOutcome) (text : String) (s : UserState) :
    (generateAndSendImage net text s).2.2 = clientOutcomeSpec net text := by
  cases hp : s.perm <;> cases net <;> (try rfl) <;>
    (rename_i code body
     cases body <;>
       simp only [generateAndSendImage, clientOutcomeSpec, loadOrStorePerm, hp] <;>
       split_ifs <;> rfl)

/-- The spec-side outcome is a success exactly when the oracle delivered a
200 response that decodes with status "OK" and a non-empty direct link. -/
theorem clientOutcomeSpec_success_iff (net : HttpOutcome) (text : String) :
    (∃ link cap, clientOutcomeSpec net text = ImageResult.photoSent link cap) ↔
      ∃ r, net = HttpOutcome.response 200 (HttpBody.decoded r) ∧
        r.Status = "OK" ∧ r.DirectLink ≠ "" := by
  cases net with
  | buildError => simp [clientOutcomeSpec]
  | transportError => simp [clientOutcomeSpec]
  | response code body =>
    by_cases hc : code = 200
    · subst hc
      cases body with
      | malformed => simp [clientOutcomeSpec]
      | decoded r =>
        by_cases hst : r.Status = "OK" <;> by_cases hdl : r.DirectLink = "" <;>
          simp [clientOutcomeSpec, hst, hdl]
    · cases body <;> simp [clientOutcomeSpec, hc]

/-- C6: the image client reports success exactly when the request builds,
the transport succeeds, the status is 200, the body decodes, the decoded
status field equals "OK" (the sole success discriminator) and the direct
link is non-empty; otherwise the reported error variant is the one of the
first failing check in that fixed order (the refinement of the outcome
against the spec-side outcome list `clientOutcomeSpec`). -/
theorem C6_image_client_outcomes (net : HttpOutcome) (text : String) (s : UserState) :
    (generateAndSendImage net text s).2.2 = clientOutcomeSpec net text ∧
    ((∃ link cap, (generateAndSendImage net text s).2.2 = ImageResult.photoSent link cap) ↔
      ∃ r, net = HttpOutcome.response 200 (HttpBody.decoded r) ∧
        r.Status = "OK" ∧ r.DirectLink ≠ "") := by
  refine ⟨generateAndSendImage_result net text s, ?_⟩
  rw [generateAndSendImage_result net text s]
  exact clientOutcomeSpec_success_iff net text

/-- C9: every caption attached to a successfully sent photo has length at
most 1024 units, and whenever the untruncated caption exceeds 1024 units the
sent caption ends with the `...` truncation marker. -/
theorem C9_caption_bound (net : HttpOutcome) (text : String) (s : UserState)
    (link cap : String)
    (h : (generateAndSendImage net text s).2.2 = ImageResult.photoSent link cap) :
    cap.data.length ≤ 1024 ∧
    (1024 < (rawCaption text).data.length →
      ∃ pre, cap.data = pre ++ ['.', '.', '.']) := by
  rw [generateAndSendImage_result net text s] at h
  have hcap : cap = sentCaption text := by
    cases net with
    | buildError => simp [clientOutcomeSpec] at h
    | transportError => simp [clientOutcomeSpec] at h
    | response code body =>
      by_cases hc : code = 200
      · subst hc
        cases body with
        | malformed => simp [clientOutcomeSpec] at h
        | decoded r =>
          by_cases hst : r.Status = "OK" <;> by_cases hdl : r.DirectLink = "" <;>
            simp [clientOutcomeSpec, hst, hdl] at h
          exact h.2.symm
      · simp [clientOutcomeSpec, hc] at h
  subst hcap
  constructor
  · unfold sentCaption
    by_cases hlong : 1024 < (rawCaption text).data.length
    · rw [if_pos hlong]
      have hd : (((⟨(rawCaption text).data.take 1020⟩ : String) ++ "...")).data
          = (rawCaption text).data.take 1020 ++ ['.', '.', '.'] := rfl
      rw [hd, List.length_append, List.length_take]
      have h3 : (['.', '.', '.'] : List Char).length = 3 := rfl
      rw [h3]
      omega
    · rw [if_neg hlong]
      omega
  · intro hlong
    unfold sentCaption
    rw [if_pos hlong]
    exact ⟨(rawCaption text).data.take 1020, rfl⟩

/-- Witness for C9: a concrete successful exchange, with a short text. -/
theorem C9_caption_bound_witness :
    (sentCaption "hello").data.length ≤ 1024 :=
  (C9_caption_bound (.response 200 (.decoded ⟨"OK", "L", ""⟩)) "hello" initialState
    "L" (sentCaption "hello") (by decide)).1

/-! ## Handler state lemmas -/

/-- Entering settings mode yields the canonical in-settings state: permanent
entry materialized, temporary copy equal to it, flag raised, waiting clear. -/
theorem handleSettingsEnter_state (s : UserState) :
    (handleSettingsEnter s).1 =
      { perm := some (getOrDefault s), temp := some (getOrDefault s),
        mode := some true, waiting := some "" } := by
  obtain ⟨p, tm, md, w⟩ := s
  cases p <;> rfl

/-- The state part of the image path: the only change is materializing the
permanent entry at its observed value. -/
theorem generateAndSendImage_state (net : HttpOutcome) (text : String) (s : UserState) :
    (generateAndSendImage net text s).1 = { s with perm := some (getOrDefault s) } := by
  obtain ⟨p, tm, md, w⟩ := s
  cases hp : p <;> cases net <;> (try rfl) <;>
    (rename_i code body
     cases body <;>
       simp only [generateAndSendImage, getOrDefault, loadOrStorePerm, hp] <;>
       split_ifs <;> rfl)

/-- The request part of the image path: text from the message, colors from
the observed permanent settings with a defensive delimiter strip, fixed
size. -/
theorem generateAndSendImage_request (net : HttpOutcome) (text : String) (s : UserState) :
    (generateAndSendImage net text s).2.1 =
      { text := text, color := goTrimPrefix (getOrDefault s).TextColor "#",
        background := goTrimPrefix (getOrDefault s).BgColor "#", size := "16" } := by
  obtain ⟨p, tm, md, w⟩ := s
  cases hp : p <;> cases net <;> (try rfl) <;>
    (rename_i code body
     cases body <;>
       simp only [generateAndSendImage, getOrDefault, loadOrStorePerm, hp] <;>
       split_ifs <;> rfl)

/-- Saving from settings mode with a temporary record copies it into the
permanent store and exits the mode. -/
theorem handleSettingsSave_some (s : UserState) (t : UserSettings)
    (hm : isUserInSettingsMode s = true) (ht : s.temp = some t) :
    handleSettingsSave s
      = (exitSettingsMode { s with perm := some t }, Reply.settingsSaved) := by
  unfold handleSettingsSave
  rw [hm, ht]
  rfl

/-- Cancelling from settings mode exits without touching the permanent
store. -/
theorem handleSettingsCancel_in_mode (s : UserState) (hm : isUserInSettingsMode s = true) :
    handleSettingsCancel s = (exitSettingsMode s, Reply.settingsCancelled) := by
  unfold handleSettingsCancel
  rw [hm]
  rfl

/-- A bare `/tx_color` in settings mode only records the awaited field and
prompts. -/
theorem handleSetColor_tx_prompt (s : UserState) (hm : isUserInSettingsMode s = true) :
    handleSetColor "/tx_color" s
      = ({ s with waiting := some "tx_color" }, Reply.colorPrompt "tx_color") := by
  unfold handleSetColor
  rw [hm]
  rfl

/-- An inline `/tx_color 1a2b3c` in settings mode with a temporary record
stores the value in the temporary text color and clears waiting. -/
theorem handleSetColor_tx_inline (s : UserState) (t : UserSettings)
    (hm : isUserInSettingsMode s = true) (ht : s.temp = some t) :
    handleSetColor "/tx_color 1a2b3c" s =
      ({ s with temp := some { t with TextColor := "1a2b3c" }, waiting := some "" },
        Reply.tempColorSet "tx_color" "1a2b3c") := by
  unfold handleSetColor
  rw [hm, ht]
  rfl

/-- While awaiting the text color, an invalid free-text value changes
nothing and re-prompts. -/
theorem handleTextInput_waiting_invalid (net : HttpOutcome) (s : UserState)
    (hw : s.waiting = some "tx_color") :
    handleTextInput "zzzzzz" net s
      = (s, Reply.invalidColorReprompt "zzzzzz" "tx_color") := by
  unfold handleTextInput
  rw [hw]
  rfl

/-- While awaiting the text color, a valid free-text value is stored in the
temporary settings and the waiting entry cleared. -/
theorem handleTextInput_waiting_valid (net : HttpOutcome) (s : UserState) (t : UserSettings)
    (hw : s.waiting = some "tx_color") (ht : s.temp = some t) :
    handleTextInput "00ff00" net s
      = ({ s with temp := some { t with TextColor := "00ff00" }, waiting := some "" },
          Reply.tempColorSet "tx_color" "00ff00") := by
  unfold handleTextInput
  rw [hw, ht]
  rfl

/-- C4: for any prior state, entering settings and setting the text color
inline to 1a2b3c makes a subsequent save observable through getOrDefault as
text color 1a2b3c, while a subsequent cancel instead leaves the getOrDefault
result exactly what it was before entering settings mode. -/
theorem C4_set_save_cancel_roundtrip (s : UserState) :
    (getOrDefault (handleSettingsSave
        (handleSetColor "/tx_color 1a2b3c" (handleSettingsEnter s).1).1).1).TextColor
      = "1a2b3c" ∧
    getOrDefault (handleSettingsCancel
        (handleSetColor "/tx_color 1a2b3c" (handleSettingsEnter s).1).1).1
      = getOrDefault s := by
  obtain ⟨p, tm, md, w⟩ := s
  cases p with
  | none => exact ⟨rfl, rfl⟩
  | some v => exact ⟨rfl, rfl⟩

/-- C5: in settings mode with a temporary record, a bare `/tx_color` sets
the pending field to the text color and leaves the temporary settings
untouched; a following invalid value `zzzzzz` leaves the whole state
unchanged (still awaiting) and re-prompts; a following valid value `00ff00`
clears the pending field and stores the value in the temporary text
color. -/
theorem C5_awaiting_input_sequence (s : UserState) (t : UserSettings)
    (net1 net2 : HttpOutcome)
    (hm : isUserInSettingsMode s = true) (ht : s.temp = some t) :
    (handleSetColor "/tx_color" s).1.waiting = some "tx_color" ∧
    (handleSetColor "/tx_color" s).1.temp = s.temp ∧
    handleTextInput "zzzzzz" net1 (handleSetColor "/tx_color" s).1
      = ((handleSetColor "/tx_color" s).1, Reply.invalidColorReprompt "zzzzzz" "tx_color") ∧
    (handleTextInput "00ff00" net2
        (handleTextInput "zzzzzz" net1 (handleSetColor "/tx_color" s).1).1).1.waiting
      = some "" ∧
    (handleTextInput "00ff00" net2
        (handleTextInput "zzzzzz" net1 (handleSetColor "/tx_color" s).1).1).1.temp
      = some { t with TextColor := "00ff00" } := by
  have h1 := handleSetColor_tx_prompt s hm
  have h2 := handleTextInput_waiting_invalid net1 ({ s with waiting := some "tx_color" }) rfl
  have h3 := handleTextInput_waiting_valid net2 ({ s with waiting := some "tx_color" }) t rfl ht
  rw [h1]
  refine ⟨rfl, rfl, ?_, ?_, ?_⟩
  · exact h2
  · rw [h2, h3]
  · rw [h2, h3]

/-- Witness for C5 at the canonical in-settings state. -/
theorem C5_awaiting_input_sequence_witness :
    (handleSetColor "/tx_color"
        { perm := some defaultSettings, temp := some defaultSettings,
          mode := some true, waiting := some "" }).1.waiting = some "tx_color" :=
  (C5_awaiting_input_sequence
    { perm := some defaultSettings, temp := some defaultSettings,
      mode := some true, waiting := some "" }
    defaultSettings .transportError .transportError rfl rfl).1

/-- C8 as stated fails on a user absent from the permanent store: the image
path calls LoadOrStore, which inserts the default entry, so the permanent
store differs after the call — here under a simulated transport timeout. -/
theorem C8_counterexample :
    isUserInSettingsMode initialState = false ∧
    initialState.waiting = none ∧
    initialState.perm = none ∧
    (handleTextInput "hello" HttpOutcome.transportError initialState).1.perm
      = some defaultSettings ∧
    (handleTextInput "hello" HttpOutcome.transportError initialState).1 ≠ initialState := by
  refine ⟨rfl, rfl, rfl, rfl, ?_⟩
  decide

/-- C8 amended: a free-text message handled while Idle goes to the image
path, which reads the colors from the permanent (not temporary) settings
and, on every oracle outcome including a transport timeout, changes nothing
observable: temporary settings, mode flag and pending field are untouched,
the getOrDefault view of the permanent settings is unchanged, and the
permanent store itself is unchanged whenever the user already has an entry —
the only possible write is the lazy insertion of the default entry for a
fresh user. -/
theorem C8_idle_text_frame (text : String) (net : HttpOutcome) (s : UserState)
    (hm : isUserInSettingsMode s = false)
    (hw : s.waiting = none ∨ s.waiting = some "") :
    (handleTextInput text net s).1.temp = s.temp ∧
    (handleTextInput text net s).1.mode = s.mode ∧
    (handleTextInput text net s).1.waiting = s.waiting ∧
    (handleTextInput text net s).1.perm = some (getOrDefault s) ∧
    getOrDefault (handleTextInput text net s).1 = getOrDefault s ∧
    (∀ u, s.perm = some u → (handleTextInput text net s).1 = s) ∧
    (handleTextInput text net s).2 = Reply.imageAttempt
      { text := text, color := goTrimPrefix (getOrDefault s).TextColor "#",
        background := goTrimPrefix (getOrDefault s).BgColor "#", size := "16" }
      ((generateAndSendImage net text s).2.2) := by
  have hred : handleTextInput text net s = handleTextFallthrough text net s := by
    rcases hw with hw | hw
    · unfold handleTextInput
      rw [hw]
    · unfold handleTextInput
      rw [hw]
      rfl
  have hfall : handleTextFallthrough text net s
      = ((generateAndSendImage net text s).1,
          Reply.imageAttempt (generateAndSendImage net text s).2.1
            (generateAndSendImage net text s).2.2) := by
    unfold handleTextFallthrough
    rw [hm]
    rfl
  rw [hred, hfall, generateAndSendImage_state, generateAndSendImage_request]
  refine ⟨rfl, rfl, rfl, rfl, ?_, ?_, rfl⟩
  · simp [getOrDefault, loadOrStorePerm]
  · intro u hu
    have hval : getOrDefault s = u := by simp [getOrDefault, loadOrStorePerm, hu]
    rw [hval, ← hu]

/-- Witness for C8 amended at a fresh user with a timed-out upstream. -/
theorem C8_idle_text_frame_witness :
    (handleTextInput "hello" HttpOutcome.transportError initialState).1.temp
      = initialState.temp :=
  (C8_idle_text_frame "hello" HttpOutcome.transportError initialState rfl (Or.inl rfl)).1

/-! ## The store invariant and its preservation -/

/-- The observed permanent settings always pass the validator when every
stored permanent entry does (the lazy default does). -/
theorem getOrDefault_valid (s : UserState)
    (hperm : ∀ u, s.perm = some u → settingsValid u) :
    settingsValid (getOrDefault s) := by
  rcases hp : s.perm with _ | v
  · have hd : getOrDefault s = defaultSettings := by
      simp [getOrDefault, loadOrStorePerm, hp]
    rw [hd]
    exact ⟨by decide, by decide⟩
  · have hd : getOrDefault s = v := by
      simp [getOrDefault, loadOrStorePerm, hp]
    rw [hd]
    exact hperm v hp

/-- Exiting settings mode preserves the invariant whenever the permanent
entries are valid: the temporary entry is deleted and the flag lowered. -/
theorem userInv_exit (s : UserState)
    (hperm : ∀ u, s.perm = some u → settingsValid u) :
    userInv (exitSettingsMode s) := by
  refine ⟨fun u hu => hperm u hu, ?_, rfl⟩
  intro u hu
  exact absurd hu (by simp [exitSettingsMode])

/-- Entering settings mode preserves the invariant. -/
theorem userInv_enter (s : UserState) (h : userInv s) :
    userInv (handleSettingsEnter s).1 := by
  rw [handleSettingsEnter_state]
  have hval : settingsValid (getOrDefault s) := getOrDefault_valid s h.1
  refine ⟨?_, ?_, rfl⟩
  · intro u hu
    exact (Option.some.inj hu) ▸ hval
  · intro u hu
    exact (Option.some.inj hu) ▸ hval

/-- The fallthrough of the text handler preserves the invariant. -/
theorem userInv_fallthrough (text : String) (net : HttpOutcome) (s : UserState)
    (h : userInv s) :
    userInv (handleTextFallthrough text net s).1 := by
  obtain ⟨hperm, htemp, hmode⟩ := h
  unfold handleTextFallthrough
  cases hm : isUserInSettingsMode s with
  | true => exact ⟨hperm, htemp, hmode⟩
  | false =>
    show userInv (generateAndSendImage net text s).1
    rw [generateAndSendImage_state]
    refine ⟨?_, htemp, hmode⟩
    intro u hu
    exact (Option.some.inj hu) ▸ getOrDefault_valid s hperm

/-- The color-set command handler preserves the invariant for every message
text. -/
theorem userInv_setColor (cmdText : String) (s : UserState) (h : userInv s) :
    userInv (handleSetColor cmdText s).1 := by
  obtain ⟨hperm, htemp, hmode⟩ := h
  unfold handleSetColor
  cases hm : isUserInSettingsMode s with
  | false => exact ⟨hperm, htemp, hmode⟩
  | true =>
    rcases hparts : goFields cmdText with _ | ⟨head, _ | ⟨arg, rest⟩⟩
    · exact ⟨hperm, htemp, hmode⟩
    · dsimp only [List.headD]
      cases hpre1 : goHasPrefix head "/tx_color" with
      | true => exact ⟨hperm, htemp, hmode⟩
      | false =>
        cases hpre2 : goHasPrefix head "/bg_color" with
        | true => exact ⟨hperm, htemp, hmode⟩
        | false => exact ⟨hperm, htemp, hmode⟩
    · dsimp only [List.headD]
      cases hpre1 : goHasPrefix head "/tx_color" with
      | true =>
        cases hv : isValidHexColor (goTrimPrefix arg "#") with
        | false => exact ⟨hperm, htemp, hmode⟩
        | true =>
          rcases htm : s.temp with _ | t
          · exact userInv_exit s hperm
          · refine ⟨hperm, ?_, ?_⟩
            · intro u hu
              cases Option.some.inj hu
              exact ⟨hv, (htemp t htm).2⟩
            · show true = isUserInSettingsMode s
              rw [hm]
      | false =>
        cases hpre2 : goHasPrefix head "/bg_color" with
        | false => exact ⟨hperm, htemp, hmode⟩
        | true =>
          cases hv : isValidHexColor (goTrimPrefix arg "#") with
          | false => exact ⟨hperm, htemp, hmode⟩
          | true =>
            rcases htm : s.temp with _ | t
            · exact userInv_exit s hperm
            · refine ⟨hperm, ?_, ?_⟩
              · intro u hu
                cases Option.some.inj hu
                exact ⟨(htemp t htm).1, hv⟩
              · show true = isUserInSettingsMode s
                rw [hm]

/-- The text-input handler preserves the invariant for every message text
and oracle. -/
theorem userInv_textInput (text : String) (net : HttpOutcome) (s : UserState)
    (h : userInv s) :
    userInv (handleTextInput text net s).1 := by
  obtain ⟨hperm, htemp, hmode⟩ := h
  unfold handleTextInput
  rcases hw : s.waiting with _ | waitingFor
  · exact userInv_fallthrough text net s ⟨hperm, htemp, hmode⟩
  · by_cases hne : waitingFor = ""
    · subst hne
      show userInv (handleTextFallthrough text net s).1
      exact userInv_fallthrough text net s ⟨hperm, htemp, hmode⟩
    · dsimp only
      rw [if_pos hne]
      cases hv : isValidHexColor (goTrimPrefix text "#") with
      | false => exact ⟨hperm, htemp, hmode⟩
      | true =>
        rcases htm : s.temp with _ | t
        · exact userInv_exit s hperm
        · have hmode' : isUserInSettingsMode s = true := by
            rw [← hmode, htm]
            rfl
          refine ⟨hperm, ?_, ?_⟩
          · intro u hu
            cases Option.some.inj hu
            have ht := htemp t htm
            by_cases htx : waitingFor = "tx_color"
            · rw [if_pos htx]
              exact ⟨hv, ht.2⟩
            · rw [if_neg htx]
              by_cases hbg : waitingFor = "bg_color"
              · rw [if_pos hbg]
                exact ⟨ht.1, hv⟩
              · rw [if_neg hbg]
                exact ht
          · show true = isUserInSettingsMode s
            rw [hmode']

/-- The save handler preserves the invariant. -/
theorem userInv_save (s : UserState) (h : userInv s) :
    userInv (handleSettingsSave s).1 := by
  obtain ⟨hperm, htemp, hmode⟩ := h
  unfold handleSettingsSave
  cases hm : isUserInSettingsMode s with
  | false => exact ⟨hperm, htemp, hmode⟩
  | true =>
    rcases htm : s.temp with _ | t
    · exact userInv_exit s hperm
    · refine ⟨?_, ?_, rfl⟩
      · intro u hu
        cases Option.some.inj hu
        exact htemp t htm
      · intro u hu
        exact absurd hu (by simp [exitSettingsMode])

/-- The cancel handler preserves the invariant. -/
theorem userInv_cancel (s : UserState) (h : userInv s) :
    userInv (handleSettingsCancel s).1 := by
  obtain ⟨hperm, htemp, hmode⟩ := h
  unfold handleSettingsCancel
  cases hm : isUserInSettingsMode s with
  | false => exact ⟨hperm, htemp, hmode⟩
  | true => exact userInv_exit s hperm

/-- Every single event preserves the invariant. -/
theorem userInv_step (s : UserState) (e : Event) (h : userInv s) :
    userInv (stepState s e) := by
  cases e with
  | start => exact userInv_exit s h.1
  | settingsEnter => exact userInv_enter s h
  | setColor cmdText => exact userInv_setColor cmdText s h
  | save => exact userInv_save s h
  | cancel => exact userInv_cancel s h
  | textMsg text net => exact userInv_textInput text net s h

/-- The invariant propagates along any event sequence. -/
theorem userInv_foldl (es : List Event) :
    ∀ s : UserState, userInv s → userInv (es.foldl stepState s) := by
  induction es with
  | nil => exact fun s h => h
  | cons e es ih => exact fun s h => ih _ (userInv_step s e h)

/-- Every reachable per-user state satisfies the invariant. -/
theorem userInv_run (es : List Event) : userInv (run es) := by
  refine userInv_foldl es initialState ⟨?_, ?_, rfl⟩
  · intro u hu
    exact absurd hu (by simp [initialState])
  · intro u hu
    exact absurd hu (by simp [initialState])

/-- C1 as stated fails: an inline command value that carries a doubled
delimiter, `/tx_color ##fff`, is trimmed once to `#fff`, which the validator
accepts (it strips a second delimiter), so the saved store can hold a value
that is neither a default nor a bare 3- or 6-digit hex string. -/
theorem C1_counterexample :
    (run [Event.settingsEnter, Event.setColor "/tx_color ##fff", Event.save]).perm
      = some { TextColor := "#fff", BgColor := "FFFFFF" } ∧
    ¬("#fff" = "000000" ∨ "#fff" = "FFFFFF" ∨
        ((("#fff" : String).data.length = 3 ∨ ("#fff" : String).data.length = 6) ∧
          ∀ c ∈ ("#fff" : String).data, isHexDigitChar c = true)) := by
  constructor
  · decide
  · decide

/-- C1 amended: every value reachable through a lookup of the saved
permanent store passes the validator `isValidHexColor` — it is the built-in
default or was accepted by validation — although it may retain one leading
delimiter when the user supplied a doubled one, so the bare-hex shape of
the original claim does not hold. -/
theorem C1_saved_lookup_validated (es : List Event) (u : UserSettings)
    (h : (run es).perm = some u) :
    isValidHexColor u.TextColor = true ∧ isValidHexColor u.BgColor = true :=
  (userInv_run es).1 u h

/-- Witness for C1 amended: after one settings entry the permanent store
holds the default entry, whose two colors pass the validator. -/
theorem C1_saved_lookup_validated_witness :
    isValidHexColor defaultSettings.TextColor = true ∧
      isValidHexColor defaultSettings.BgColor = true :=
  C1_saved_lookup_validated [Event.settingsEnter] defaultSettings (by decide)

/-- C2: after any sequence of events processed sequentially for one user, a
temporary-settings record exists if and only if that user's mode flag reads
as in-settings.  (Entry creates it, and every exit path — save, cancel,
start, and the internal-state-fault recoveries — deletes it together with
lowering the flag, which is what makes the equivalence inductive.) -/
theorem C2_temp_iff_insettings (es : List Event) :
    (∃ u, (run es).temp = some u) ↔ isUserInSettingsMode (run es) = true := by
  rw [← Option.isSome_iff_exists, (userInv_run es).2.2]

end Kbot
